import Mathlib

/-!
Shallow embedding of `src/Models/Worker.js` of hopdrive/react-native-queue:
a worker registry (`addWorker`, `removeWorker`, accessors), a job executor
(`executeJob` with its timeout race), and the lifecycle-callback dispatcher
(`executeJobLifecycleCallback`).

Modelling conventions:
- JS objects with identity (handler functions) are heap references (`Nat`);
  `Worker.workers` is the map from job name to handler reference, and the
  `.options` property that `addWorker` attaches to the handler function
  object lives in a second map from handler reference to options.
- Thrown JS errors are `JsError`; `new Error(msg)` becomes
  `JsError.error msg`, a runtime `TypeError` from dereferencing `undefined`
  becomes `JsError.typeError msg`, and a `SyntaxError` from `JSON.parse`
  becomes `JsError.syntaxError msg`.
- Asynchronous user code (handlers, callbacks, runnability predicates) is
  supplied as an environment mapping the function reference to its observable
  behaviour; a handler either settles at a time (in ms) with an outcome, or
  never settles.
- `console.error` output is returned as an explicit log.
-/

/-- A thrown JS value, as observed by a caller of this module. -/
inductive JsError where
  /-- `throw new Error(msg)` executed by this module's own code. -/
  | error (msg : String)
  /-- A runtime `TypeError`, e.g. reading a property of `undefined`. -/
  | typeError (msg : String)
  /-- A `SyntaxError`, e.g. thrown by `JSON.parse` on bad input. -/
  | syntaxError (msg : String)
  /-- An arbitrary error thrown by user-supplied code (handler, callback,
  runnability predicate), identified by a tag. -/
  | userError (tag : Nat)
deriving DecidableEq, Repr

/-- Structured data as produced by `JSON.parse`. -/
inductive Json where
  | null
  | bool (b : Bool)
  | num (n : Int)
  | str (s : String)
  | arr (xs : List Json)
  | obj (fields : List (String × Json))

/-- The resolved `isJobRunnable` slot of a worker's options: `addWorker`
stores either the user-supplied predicate or its local
`defaultIsJobRunnable = (job) => ({ runnable: true })`. Both are functions,
identified here either as the default closure or by the user function's
heap reference. -/
inductive RunnablePred where
  | defaultPred
  | user (p : Nat)
deriving DecidableEq, Repr

/-- The value returned by an `isJobRunnable` predicate:
`{ runnable: bool, [reason: string] }`. -/
structure RunnableResult where
  runnable : Bool
  reason : Option String := none
deriving DecidableEq, Repr

/-- The options object `addWorker` attaches to the handler function
(`worker.options = { ... }` at `src/Models/Worker.js:42-53`): every field is
present, callbacks resolved to the user function reference or `null`
(`none`). -/
structure WorkerOptions where
  concurrency : Int
  isJobRunnable : RunnablePred
  failureBehavior : String
  minimumMillisBetweenAttempts : Int
  onStart : Option Nat
  onSuccess : Option Nat
  onSkipped : Option Nat
  onFailure : Option Nat
  onFailed : Option Nat
  onComplete : Option Nat
deriving DecidableEq, Repr

/-- The caller-supplied `options` bag of `addWorker`: each recognized field
may be absent (`none` = the JS property is `undefined`). -/
structure WorkerOptionsBag where
  concurrency : Option Int := none
  isJobRunnable : Option Nat := none
  failureBehavior : Option String := none
  minimumMillisBetweenAttempts : Option Int := none
  onStart : Option Nat := none
  onSuccess : Option Nat := none
  onSkipped : Option Nat := none
  onFailure : Option Nat := none
  onFailed : Option Nat := none
  onComplete : Option Nat := none
deriving DecidableEq, Repr

/-- JS `x || d` for an optional integer-valued property: `undefined` and
`0` are falsy. -/
def jsOrInt (v : Option Int) (d : Int) : Int :=
  match v with
  | none => d
  | some x => if x = 0 then d else x

/-- JS `x || d` for an optional string-valued property: `undefined` and
`""` are falsy. -/
def jsOrStr (v : Option String) (d : String) : String :=
  match v with
  | none => d
  | some s => if s = "" then d else s

/-- The options object built by `addWorker` (`src/Models/Worker.js:42-53`):
each field is the supplied value `||` its default; function-valued fields
are kept when supplied (functions are truthy) and are otherwise
`defaultIsJobRunnable` (for `isJobRunnable`) or `null` (for callbacks). -/
def resolveOptions (o : WorkerOptionsBag) : WorkerOptions where
  concurrency := jsOrInt o.concurrency 1
  isJobRunnable :=
    match o.isJobRunnable with
    | none => .defaultPred
    | some p => .user p
  failureBehavior := jsOrStr o.failureBehavior "standard"
  minimumMillisBetweenAttempts := jsOrInt o.minimumMillisBetweenAttempts 0
  onStart := o.onStart
  onSuccess := o.onSuccess
  onSkipped := o.onSkipped
  onFailure := o.onFailure
  onFailed := o.onFailed
  onComplete := o.onComplete

/-- The mutable state of the module: the static registry `Worker.workers`
(job name to handler function reference) together with the `.options`
property of each handler function object (`none` when never attached). -/
structure WorkerState where
  workers : String → Option Nat
  optionsOf : Nat → Option WorkerOptions

/-- The state before any registration: empty registry, no handler carries
an `.options` property. -/
def emptyState : WorkerState where
  workers := fun _ => none
  optionsOf := fun _ => none

/-- The error thrown by `addWorker` on missing name or worker. -/
def missingArgumentError : JsError :=
  .error "Job name and associated worker function must be supplied."

/-- The error the explicit existence checks throw
(`src/Models/Worker.js:104` and its copies): the spec's `UnknownWorker`. -/
def unknownWorkerError (jobName : String) : JsError :=
  .error ("Job " ++ jobName ++ " does not have a worker assigned to it.")

/-- The runtime `TypeError` raised by `Worker.workers[jobName].options`
when no worker is registered under `jobName`. -/
def typeErrorReadingOptions : JsError :=
  .typeError "Cannot read properties of undefined (reading options)"

/-- `addWorker(jobName, worker, options)` (`src/Models/Worker.js:33-56`):
validates the arguments (`!jobName || !worker`: the empty string and a
missing function are falsy), attaches the resolved options to the handler
function object, and stores the handler in `Worker.workers[jobName]`. -/
def addWorker (st : WorkerState) (jobName : String) (worker : Option Nat)
    (options : WorkerOptionsBag) : Except JsError WorkerState :=
  match worker with
  | none => .error missingArgumentError
  | some h =>
    if jobName = "" then .error missingArgumentError
    else
      .ok { workers := fun n => if n = jobName then some h else st.workers n
            optionsOf := fun k =>
              if k = h then some (resolveOptions options) else st.optionsOf k }

/-- `removeWorker(jobName)` (`src/Models/Worker.js:64-66`): deletes the
registry entry; the `.options` property on the function object remains. -/
def removeWorker (st : WorkerState) (jobName : String) : WorkerState where
  workers := fun n => if n = jobName then none else st.workers n
  optionsOf := st.optionsOf

/-- `getWorkerOptions(jobName)` (`src/Models/Worker.js:87-89`): returns
`Worker.workers[jobName].options` with no existence check, so an
unregistered name dereferences `undefined` and raises a `TypeError`. The
`.ok` payload is `none` when the handler carries no `.options` property. -/
def getWorkerOptions (st : WorkerState) (jobName : String) :
    Except JsError (Option WorkerOptions) :=
  match st.workers jobName with
  | none => .error typeErrorReadingOptions
  | some h => .ok (st.optionsOf h)

/-- `getConcurrency(jobName)` (`src/Models/Worker.js:101-108`): explicit
existence check, then `Worker.workers[jobName].options.concurrency`. -/
def getConcurrency (st : WorkerState) (jobName : String) : Except JsError Int :=
  match st.workers jobName with
  | none => .error (unknownWorkerError jobName)
  | some h =>
    match st.optionsOf h with
    | none => .error (.typeError "Cannot read properties of undefined (reading concurrency)")
    | some o => .ok o.concurrency

/-- JS `parseInt` applied to an integer-valued number is the identity:
the number renders in decimal with no exponent (true for the safe-integer
millisecond values in scope) and parses back to itself. -/
def jsParseInt (n : Int) : Int := n

/-- `getMinimumMillisBetweenAttempts(jobName)`
(`src/Models/Worker.js:141-148`): explicit existence check, then
`parseInt(...options.minimumMillisBetweenAttempts)`. -/
def getMinimumMillisBetweenAttempts (st : WorkerState) (jobName : String) :
    Except JsError Int :=
  match st.workers jobName with
  | none => .error (unknownWorkerError jobName)
  | some h =>
    match st.optionsOf h with
    | none => .error (.typeError "Cannot read properties of undefined (reading minimumMillisBetweenAttempts)")
    | some o => .ok (jsParseInt o.minimumMillisBetweenAttempts)

/-- `getFailureBehavior(jobName)` (`src/Models/Worker.js:159-166`):
explicit existence check, then `...options.failureBehavior || null`
(`none` models the `null` branch for a falsy stored value). -/
def getFailureBehavior (st : WorkerState) (jobName : String) :
    Except JsError (Option String) :=
  match st.workers jobName with
  | none => .error (unknownWorkerError jobName)
  | some h =>
    match st.optionsOf h with
    | none => .error (.typeError "Cannot read properties of undefined (reading failureBehavior)")
    | some o => .ok (if o.failureBehavior = "" then none else some o.failureBehavior)

/-- `execIsJobRunnable(jobName, job)` (`src/Models/Worker.js:118-130`):
explicit existence check, then calls `options.isJobRunnable(job)` when it
is a function (always true for options built by `addWorker`; the default
predicate returns `{ runnable: true }`). A user predicate's behaviour is
read from `penv`; an error it throws is not caught. The predicate receives
the job object itself. -/
def execIsJobRunnable (st : WorkerState)
    (penv : Nat → Json → Except JsError RunnableResult)
    (jobName : String) (job : Json) : Except JsError RunnableResult :=
  match st.workers jobName with
  | none => .error (unknownWorkerError jobName)
  | some h =>
    match st.optionsOf h with
    | none => .error (.typeError "Cannot read properties of undefined (reading isJobRunnable)")
    | some o =>
      match o.isJobRunnable with
      | .defaultPred => .ok { runnable := true }
      | .user p => penv p job

/-- The job row handed to `executeJob`: `{id, name, payload, timeout}`,
payload still in its serialized (string) form. -/
structure JobView where
  id : String
  name : String
  payload : String
  timeout : Int

/-- Observable behaviour of an asynchronous handler invocation: it either
settles after `t` milliseconds with an outcome (resolution or rejection),
or it never settles. -/
inductive HandlerBehavior where
  | settles (t : Int) (outcome : Except JsError Unit)
  | never
deriving Repr

/-- The state of the promise returned by `executeJob`: still pending, or
settled (resolved on `.ok`, rejected on `.error`). -/
inductive ExecOutcome where
  | pending
  | settled (r : Except JsError Unit)
deriving Repr

/-- Result of one `executeJob` call: the promise's final state, plus the
list of handler invocations (handler reference, job id argument, decoded
payload argument) performed during the call. -/
structure ExecResult where
  outcome : ExecOutcome
  calls : List (Nat × String × Json)

/-- The rejection produced by the timeout timer
(`src/Models/Worker.js:193`). -/
def timeoutError (jobId : String) (jobTimeout : Int) : JsError :=
  .error ("TIMEOUT: Job id: " ++ jobId ++ " timed out in " ++ toString jobTimeout ++ "ms.")

/-- `executeJob(job)` (`src/Models/Worker.js:177-201`). Checks the worker
exists, clones `id`/`name`/`timeout` off the job row, decodes the payload
with `JSON.parse` (modelled by the `JSONparse` argument, since `JSON.parse`
is a runtime builtin; its error propagates and the handler is not called),
then: with `timeout > 0`, awaits `Promise.race` of a `setTimeout` rejection
at `timeout` ms against the handler invoked with `(jobId, jobPayload)`;
otherwise awaits the handler alone. The race resolves to whichever settles
first; a handler settling at exactly the timer's deadline is not ordered by
the source's semantics, and this model lets the timer win that tie (the
properties proved below use strict orderings only). The handler's
behaviour is read off `henv`. -/
def executeJob (st : WorkerState) (henv : Nat → String → Json → HandlerBehavior)
    (JSONparse : String → Except JsError Json) (job : JobView) : ExecResult :=
  match st.workers job.name with
  | none => ⟨.settled (.error (unknownWorkerError job.name)), []⟩
  | some h =>
    let jobId := job.id
    let jobTimeout := job.timeout
    match JSONparse job.payload with
    | .error e => ⟨.settled (.error e), []⟩
    | .ok jobPayload =>
      if jobTimeout > 0 then
        match henv h jobId jobPayload with
        | .never =>
          ⟨.settled (.error (timeoutError jobId jobTimeout)), [(h, jobId, jobPayload)]⟩
        | .settles t outcome =>
          if t < jobTimeout then ⟨.settled outcome, [(h, jobId, jobPayload)]⟩
          else ⟨.settled (.error (timeoutError jobId jobTimeout)), [(h, jobId, jobPayload)]⟩
      else
        match henv h jobId jobPayload with
        | .never => ⟨.pending, [(h, jobId, jobPayload)]⟩
        | .settles _ outcome => ⟨.settled outcome, [(h, jobId, jobPayload)]⟩

/-- The list of valid lifecycle callback names
(`src/Models/Worker.js:214`). -/
def validCallbacks : List String :=
  ["onStart", "onSuccess", "onSkipped", "onFailure", "onFailed", "onComplete"]

/-- The error thrown on an invalid callback name
(`src/Models/Worker.js:216`): the spec's `InvalidArgument`. -/
def invalidCallbackError : JsError :=
  .error "Invalid job lifecycle callback name."

/-- Dynamic property access `options[callbackName]` for the six lifecycle
slots. -/
def optionsCallback (o : WorkerOptions) (callbackName : String) : Option Nat :=
  if callbackName = "onStart" then o.onStart
  else if callbackName = "onSuccess" then o.onSuccess
  else if callbackName = "onSkipped" then o.onSkipped
  else if callbackName = "onFailure" then o.onFailure
  else if callbackName = "onFailed" then o.onFailed
  else if callbackName = "onComplete" then o.onComplete
  else none

/-- `executeJobLifecycleCallback(callbackName, jobName, jobId, jobPayload)`
(`src/Models/Worker.js:212-228`). Rejects an invalid callback name, then
reads `Worker.workers[jobName].options[callbackName]` (a `TypeError` when
no worker is registered under `jobName`); when the slot holds a callback,
awaits it inside `try/catch`, logging a thrown error through
`console.error`. On success the `.ok` payload is the list of errors logged
during the call. The callback's behaviour is read off `cenv`. -/
def executeJobLifecycleCallback (st : WorkerState)
    (cenv : Nat → String → Json → Except JsError Unit)
    (callbackName jobName jobId : String) (jobPayload : Json) :
    Except JsError (List JsError) :=
  if validCallbacks.contains callbackName then
    match st.workers jobName with
    | none => .error typeErrorReadingOptions
    | some h =>
      match st.optionsOf h with
      | none => .ok []
      | some o =>
        match optionsCallback o callbackName with
        | none => .ok []
        | some cb =>
          match cenv cb jobId jobPayload with
          | .ok _ => .ok []
          | .error e => .ok [e]
  else .error invalidCallbackError

/-! Concrete fixtures used by the closed witness theorems below. -/

/-- A fully explicit options bag. -/
def bagA : WorkerOptionsBag :=
  { concurrency := some 4, isJobRunnable := some 11, failureBehavior := some "custom",
    minimumMillisBetweenAttempts := some 250, onFailed := some 7 }

/-- A sparse options bag (everything but `concurrency` omitted). -/
def bagB : WorkerOptionsBag := { concurrency := some 9 }

/-- Extracts the post-state of a successful registration. -/
def okState (r : Except JsError WorkerState) : WorkerState :=
  match r with
  | .ok s => s
  | .error _ => emptyState

/-- State after registering handler `3` under `"sync"` with `bagA`. -/
def stA : WorkerState := okState (addWorker emptyState "sync" (some 3) bagA)

/-- `stA` after re-registering `"sync"` with a different handler and `bagB`. -/
def stReg2 : WorkerState := okState (addWorker stA "sync" (some 5) bagB)

/-- `stA` after registering the same handler `3` under a second name
`"backup"` with `bagB`. -/
def stTwo : WorkerState := okState (addWorker stA "backup" (some 3) bagB)

/-- A handler that resolves after 5 ms. -/
def henvFast : Nat → String → Json → HandlerBehavior := fun _ _ _ => .settles 5 (.ok ())

/-- A handler that never settles. -/
def henvNever : Nat → String → Json → HandlerBehavior := fun _ _ _ => .never

/-- A minimal stand-in for `JSON.parse`: accepts exactly the text of the
empty object, rejects everything else with a `SyntaxError`. -/
def parseSimple : String → Except JsError Json :=
  fun s => if s = "{}" then .ok (.obj []) else .error (.syntaxError "Unexpected token in JSON")

/-- A job row bound for worker `"sync"` with a 10 ms timeout. -/
def jobFast : JobView := { id := "j1", name := "sync", payload := "{}", timeout := 10 }

/-- A job row whose payload is not decodable. -/
def jobBad : JobView := { id := "j2", name := "sync", payload := "oops", timeout := 10 }

/-- A lifecycle callback that completes normally. -/
def cenvOk : Nat → String → Json → Except JsError Unit := fun _ _ _ => .ok ()

/-- A lifecycle callback that throws. -/
def cenvThrow : Nat → String → Json → Except JsError Unit := fun _ _ _ => .error (.userError 42)

/-- A runnability predicate that throws. -/
def penvThrow : Nat → Json → Except JsError RunnableResult := fun _ _ => .error (.userError 9)

/-! Claims. -/

/-- Claim C2, counterexample: `getWorkerOptions` (the spec's `getPolicy`)
on an unregistered name does not fail with `UnknownWorker`; it raises the
runtime `TypeError` from dereferencing the missing entry. -/
theorem getWorkerOptions_unregistered_not_unknownWorker :
    getWorkerOptions emptyState "missing" = .error typeErrorReadingOptions ∧
    typeErrorReadingOptions ≠ unknownWorkerError "missing" :=
  ⟨rfl, by decide⟩

/-- Claim C2, amended: on an unregistered name the three thin accessors
(`getConcurrency`, `getFailureBehavior`, `getMinimumMillisBetweenAttempts`)
fail explicitly with `UnknownWorker`, while `getWorkerOptions` fails with a
`TypeError` from dereferencing the missing entry; no accessor ever returns
a partial or default worker. -/
theorem accessors_unregistered_fail (st : WorkerState) (name : String)
    (hmiss : st.workers name = none) :
    getWorkerOptions st name = .error typeErrorReadingOptions ∧
    getConcurrency st name = .error (unknownWorkerError name) ∧
    getFailureBehavior st name = .error (unknownWorkerError name) ∧
    getMinimumMillisBetweenAttempts st name = .error (unknownWorkerError name) := by
  unfold getWorkerOptions getConcurrency getFailureBehavior getMinimumMillisBetweenAttempts
  rw [hmiss]
  exact ⟨rfl, rfl, rfl, rfl⟩

/-- Claim C2, witness for the amended theorem at a concrete state. -/
theorem accessors_unregistered_fail_witness :
    getWorkerOptions emptyState "missing" = .error typeErrorReadingOptions ∧
    getConcurrency emptyState "missing" = .error (unknownWorkerError "missing") ∧
    getFailureBehavior emptyState "missing" = .error (unknownWorkerError "missing") ∧
    getMinimumMillisBetweenAttempts emptyState "missing" = .error (unknownWorkerError "missing") :=
  accessors_unregistered_fail emptyState "missing" rfl

/-- Claim C3, counterexample: `executeJobLifecycleCallback` with a valid
callback name but an unregistered job name does not fail with
`UnknownWorker`; it raises the `TypeError` from dereferencing the missing
entry. -/
theorem dispatch_unregistered_not_unknownWorker :
    executeJobLifecycleCallback emptyState cenvOk "onFailed" "missing" "j1" .null
      = .error typeErrorReadingOptions ∧
    typeErrorReadingOptions ≠ unknownWorkerError "missing" :=
  ⟨rfl, by decide⟩

/-- Claim C3, amended: for every valid lifecycle callback name and every
job name with no registered worker, `executeJobLifecycleCallback` fails
with the `TypeError` raised by reading `.options` of the missing entry
(not with `UnknownWorker`). -/
theorem dispatch_unregistered_fails (st : WorkerState)
    (cenv : Nat → String → Json → Except JsError Unit)
    (callbackName jobName jobId : String) (jobPayload : Json)
    (hvalid : callbackName ∈ validCallbacks)
    (hmiss : st.workers jobName = none) :
    executeJobLifecycleCallback st cenv callbackName jobName jobId jobPayload
      = .error typeErrorReadingOptions := by
  have hc : validCallbacks.contains callbackName = true := List.elem_iff.mpr hvalid
  unfold executeJobLifecycleCallback
  rw [hc, hmiss]
  simp

/-- Claim C3, witness for the amended theorem at a concrete state. -/
theorem dispatch_unregistered_fails_witness :
    executeJobLifecycleCallback emptyState cenvOk "onStart" "missing" "j1" .null
      = .error typeErrorReadingOptions :=
  dispatch_unregistered_fails emptyState cenvOk "onStart" "missing" "j1" .null
    (by decide) rfl

/-- Claim C9: for every callback name outside the fixed set of six
lifecycle names, `executeJobLifecycleCallback` fails with
`InvalidArgument`, regardless of state, job name, id and payload. -/
theorem dispatch_invalid_name_fails (st : WorkerState)
    (cenv : Nat → String → Json → Except JsError Unit)
    (callbackName jobName jobId : String) (jobPayload : Json)
    (hinvalid : callbackName ∉ validCallbacks) :
    executeJobLifecycleCallback st cenv callbackName jobName jobId jobPayload
      = .error invalidCallbackError := by
  have hc : validCallbacks.contains callbackName = false := by
    cases hcc : validCallbacks.contains callbackName
    · rfl
    · exact absurd (List.elem_iff.mp hcc) hinvalid
  unfold executeJobLifecycleCallback
  rw [hc]
  simp

/-- Claim C9, witness at a concrete invalid name. -/
theorem dispatch_invalid_name_fails_witness :
    executeJobLifecycleCallback stA cenvOk "bogus" "sync" "j1" .null
      = .error invalidCallbackError :=
  dispatch_invalid_name_fails stA cenvOk "bogus" "sync" "j1" .null (by decide)

/-- Claim C4: when the worker is registered but the payload cannot be
decoded, `executeJob` rejects with the decode error (the `SyntaxError`
thrown by `JSON.parse`, the spec's `PayloadDecodeError`), propagated
unmodified, and the handler is never invoked. -/
theorem executeJob_bad_payload (st : WorkerState)
    (henv : Nat → String → Json → HandlerBehavior)
    (JSONparse : String → Except JsError Json) (job : JobView) (h : Nat) (msg : String)
    (hreg : st.workers job.name = some h)
    (hparse : JSONparse job.payload = .error (.syntaxError msg)) :
    (executeJob st henv JSONparse job).outcome = .settled (.error (.syntaxError msg)) ∧
    (executeJob st henv JSONparse job).calls = [] := by
  unfold executeJob
  rw [hreg, hparse]
  exact ⟨rfl, rfl⟩

/-- Claim C4, witness: a concrete undecodable payload rejects with the
decode error and produces no handler call. -/
theorem executeJob_bad_payload_witness :
    (executeJob stA henvFast parseSimple jobBad).outcome
      = .settled (.error (.syntaxError "Unexpected token in JSON")) ∧
    (executeJob stA henvFast parseSimple jobBad).calls = [] :=
  executeJob_bad_payload stA henvFast parseSimple jobBad 3 "Unexpected token in JSON" rfl rfl

/-- Claim C5: when the registered worker's configured lifecycle callback
throws, `executeJobLifecycleCallback` still resolves (returns `.ok`): the
error is caught and appears only in the `console.error` log, never as a
rejection of the dispatch call. -/
theorem dispatch_swallows_callback_error (st : WorkerState)
    (cenv : Nat → String → Json → Except JsError Unit)
    (callbackName jobName jobId : String) (jobPayload : Json)
    (h cb : Nat) (o : WorkerOptions) (e : JsError)
    (hvalid : callbackName ∈ validCallbacks)
    (hreg : st.workers jobName = some h)
    (hopts : st.optionsOf h = some o)
    (hcb : optionsCallback o callbackName = some cb)
    (hthrow : cenv cb jobId jobPayload = .error e) :
    executeJobLifecycleCallback st cenv callbackName jobName jobId jobPayload = .ok [e] := by
  have hc : validCallbacks.contains callbackName = true := List.elem_iff.mpr hvalid
  unfold executeJobLifecycleCallback
  simp only [hc, hreg, hopts, hcb, hthrow, if_true]

/-- Claim C5, witness: the `onFailed` callback registered in `stA` throws,
and the dispatch call resolves with the error only in the log. -/
theorem dispatch_swallows_callback_error_witness :
    executeJobLifecycleCallback stA cenvThrow "onFailed" "sync" "j1" .null
      = .ok [.userError 42] :=
  dispatch_swallows_callback_error stA cenvThrow "onFailed" "sync" "j1" .null
    3 7 (resolveOptions bagA) (.userError 42) (by decide) rfl rfl rfl rfl

/-- Claim C6: for a registered name, `execIsJobRunnable` returns exactly
the result of the stored `isJobRunnable` predicate applied to the job —
`{ runnable: true }` when the worker was registered without a predicate
(the default predicate), and the user predicate's result otherwise; in
particular an error thrown by the user predicate propagates unmodified. -/
theorem execIsJobRunnable_spec (st : WorkerState)
    (penv : Nat → Json → Except JsError RunnableResult)
    (jobName : String) (job : Json) (h : Nat) (o : WorkerOptions)
    (hreg : st.workers jobName = some h)
    (hopts : st.optionsOf h = some o) :
    (execIsJobRunnable st penv jobName job =
      match o.isJobRunnable with
      | .defaultPred => .ok { runnable := true, reason := none }
      | .user p => penv p job) ∧
    (o.isJobRunnable = .defaultPred →
      execIsJobRunnable st penv jobName job = .ok { runnable := true, reason := none }) ∧
    (∀ p e, o.isJobRunnable = .user p → penv p job = .error e →
      execIsJobRunnable st penv jobName job = .error e) := by
  unfold execIsJobRunnable
  simp only [hreg, hopts]
  refine ⟨trivial, ?_, ?_⟩
  · intro hd
    rw [hd]
  · intro p e hu he
    rw [hu]
    exact he

/-- Claim C6, witness: the user predicate registered in `stA` throws and
the error propagates unmodified through `execIsJobRunnable`. -/
theorem execIsJobRunnable_spec_witness :
    execIsJobRunnable stA penvThrow "sync" .null = .error (.userError 9) :=
  (execIsJobRunnable_spec stA penvThrow "sync" .null 3 (resolveOptions bagA)
    rfl rfl).2.2 11 (.userError 9) rfl rfl

/-- For a valid options bag (a supplied `concurrency` is nonzero, a
supplied `failureBehavior` is nonempty, so neither is falsy), the options
object built by `addWorker` is exactly the supplied value of each field
with the documented default substituted when the field is omitted. -/
theorem resolveOptions_valid (bag : WorkerOptionsBag)
    (hconc : bag.concurrency ≠ some 0)
    (hfb : bag.failureBehavior ≠ some "") :
    resolveOptions bag =
      { concurrency := bag.concurrency.getD 1
        isJobRunnable := (bag.isJobRunnable.map RunnablePred.user).getD RunnablePred.defaultPred
        failureBehavior := bag.failureBehavior.getD "standard"
        minimumMillisBetweenAttempts := bag.minimumMillisBetweenAttempts.getD 0
        onStart := bag.onStart
        onSuccess := bag.onSuccess
        onSkipped := bag.onSkipped
        onFailure := bag.onFailure
        onFailed := bag.onFailed
        onComplete := bag.onComplete } := by
  unfold resolveOptions
  simp only [WorkerOptions.mk.injEq]
  refine ⟨?_, ?_, ?_, ?_, trivial, trivial, trivial, trivial, trivial, trivial⟩
  · cases hc : bag.concurrency with
    | none => rfl
    | some c =>
      rw [hc] at hconc
      have hc0 : ¬ c = 0 := fun h0 => hconc (by rw [h0])
      simp [jsOrInt, hc0]
  · cases hi : bag.isJobRunnable <;> rfl
  · cases hf : bag.failureBehavior with
    | none => rfl
    | some s =>
      rw [hf] at hfb
      have hs : ¬ s = "" := fun h0 => hfb (by rw [h0])
      simp [jsOrStr, hs]
  · cases hm : bag.minimumMillisBetweenAttempts with
    | none => rfl
    | some m =>
      by_cases hm0 : m = 0 <;> simp [jsOrInt, hm0]

/-- Claim C7: after a valid registration, `getWorkerOptions` (the spec's
`getPolicy`) reports each option equal to the supplied value, with the
documented default (`concurrency` 1, the always-runnable predicate,
`failureBehavior` "standard", `minimumMillisBetweenAttempts` 0, `null`
callbacks) substituted for every omitted field; every field of the
returned policy carries a defined value by construction. -/
theorem addWorker_applies_defaults (st : WorkerState) (jobName : String) (h : Nat)
    (bag : WorkerOptionsBag) (st' : WorkerState)
    (hname : jobName ≠ "")
    (hconc : bag.concurrency ≠ some 0)
    (hfb : bag.failureBehavior ≠ some "")
    (hadd : addWorker st jobName (some h) bag = .ok st') :
    getWorkerOptions st' jobName = .ok (some
      { concurrency := bag.concurrency.getD 1
        isJobRunnable := (bag.isJobRunnable.map RunnablePred.user).getD RunnablePred.defaultPred
        failureBehavior := bag.failureBehavior.getD "standard"
        minimumMillisBetweenAttempts := bag.minimumMillisBetweenAttempts.getD 0
        onStart := bag.onStart
        onSuccess := bag.onSuccess
        onSkipped := bag.onSkipped
        onFailure := bag.onFailure
        onFailed := bag.onFailed
        onComplete := bag.onComplete }) := by
  simp only [addWorker, if_neg hname, Except.ok.injEq] at hadd
  subst hadd
  simp [getWorkerOptions, resolveOptions_valid bag hconc hfb]

/-- Claim C7, witness: a concrete registration reports the supplied
options with defaults for the omitted fields. -/
theorem addWorker_applies_defaults_witness :
    getWorkerOptions stA "sync" = .ok (some
      { concurrency := 4
        isJobRunnable := RunnablePred.user 11
        failureBehavior := "custom"
        minimumMillisBetweenAttempts := 250
        onStart := none
        onSuccess := none
        onSkipped := none
        onFailure := none
        onFailed := some 7
        onComplete := none }) :=
  addWorker_applies_defaults emptyState "sync" 3 bagA stA
    (by decide) (by decide) (by decide) rfl

/-- Claim C8: re-registering the same name replaces the entry completely:
afterwards the registry holds the second handler, and `getWorkerOptions`
and `getConcurrency` report exactly the options resolved from the second
call's bag, with no dependence on the first call's bag. -/
theorem addWorker_overwrites (st : WorkerState) (jobName : String) (h1 h2 : Nat)
    (bag1 bag2 : WorkerOptionsBag) (st1 st2 : WorkerState)
    (hname : jobName ≠ "")
    (hadd1 : addWorker st jobName (some h1) bag1 = .ok st1)
    (hadd2 : addWorker st1 jobName (some h2) bag2 = .ok st2) :
    st2.workers jobName = some h2 ∧
    getWorkerOptions st2 jobName = .ok (some (resolveOptions bag2)) ∧
    getConcurrency st2 jobName = .ok (resolveOptions bag2).concurrency := by
  simp only [addWorker, if_neg hname, Except.ok.injEq] at hadd1 hadd2
  subst hadd1
  subst hadd2
  refine ⟨?_, ?_, ?_⟩ <;> simp [getWorkerOptions, getConcurrency]

/-- Claim C8, witness: `"sync"` re-registered with a different handler and
bag reports only the second bag's options. -/
theorem addWorker_overwrites_witness :
    stReg2.workers "sync" = some 5 ∧
    getWorkerOptions stReg2 "sync" = .ok (some (resolveOptions bagB)) ∧
    getConcurrency stReg2 "sync" = .ok (resolveOptions bagB).concurrency :=
  addWorker_overwrites emptyState "sync" 3 5 bagA bagB stA stReg2 (by decide) rfl rfl

/-- Claim C10: because `addWorker` stores the resolved options as the
`.options` property of the handler function object itself, registering two
distinct names with the same handler makes both names report the later
registration's options: after the second registration, both lookups return
exactly the options resolved from the second bag, and the first name no
longer reports its own registration's options whenever the two resolved
option objects differ. -/
theorem addWorker_shared_handler_policy (st : WorkerState) (n1 n2 : String) (h : Nat)
    (bag1 bag2 : WorkerOptionsBag) (st1 st2 : WorkerState)
    (hn1 : n1 ≠ "") (hn2 : n2 ≠ "") (hdistinct : n1 ≠ n2)
    (hadd1 : addWorker st n1 (some h) bag1 = .ok st1)
    (hadd2 : addWorker st1 n2 (some h) bag2 = .ok st2) :
    getWorkerOptions st2 n1 = .ok (some (resolveOptions bag2)) ∧
    getWorkerOptions st2 n2 = .ok (some (resolveOptions bag2)) ∧
    (resolveOptions bag1 ≠ resolveOptions bag2 →
      getWorkerOptions st2 n1 ≠ .ok (some (resolveOptions bag1))) := by
  simp only [addWorker, if_neg hn1, if_neg hn2, Except.ok.injEq] at hadd1 hadd2
  subst hadd1
  subst hadd2
  have g1 : getWorkerOptions
      { workers := fun n => if n = n2 then some h
          else if n = n1 then some h else st.workers n
        optionsOf := fun k => if k = h then some (resolveOptions bag2)
          else if k = h then some (resolveOptions bag1) else st.optionsOf k } n1
      = .ok (some (resolveOptions bag2)) := by
    simp [getWorkerOptions, hdistinct]
  refine ⟨g1, by simp [getWorkerOptions], fun hne hcontra => hne ?_⟩
  rw [g1] at hcontra
  simp only [Except.ok.injEq, Option.some.injEq] at hcontra
  exact hcontra.symm

/-- Claim C10, witness: handler `3` registered under both `"sync"` and
`"backup"`; both names report the second registration's options. -/
theorem addWorker_shared_handler_policy_witness :
    getWorkerOptions stTwo "sync" = .ok (some (resolveOptions bagB)) ∧
    getWorkerOptions stTwo "backup" = .ok (some (resolveOptions bagB)) :=
  have main := addWorker_shared_handler_policy emptyState "sync" "backup" 3 bagA bagB
    stA stTwo (by decide) (by decide) (by decide) rfl rfl
  ⟨main.1, main.2.1⟩

/-- Claim C1: for a registered name with decodable payload and
`timeout > 0`, `executeJob` invokes the handler with the job id and the
decoded payload and races it against the timer: when the handler settles
strictly before the timer the call takes the handler's outcome, and when
the timer fires strictly first (the handler never settles, or settles
strictly after the deadline) the call rejects with the `TimeoutError`
carrying the job id and the configured timeout. -/
theorem executeJob_timeout_race (st : WorkerState)
    (henv : Nat → String → Json → HandlerBehavior)
    (JSONparse : String → Except JsError Json) (job : JobView) (h : Nat) (p : Json)
    (hreg : st.workers job.name = some h)
    (hparse : JSONparse job.payload = .ok p)
    (htime : 0 < job.timeout) :
    (executeJob st henv JSONparse job).calls = [(h, job.id, p)] ∧
    (∀ t outcome, henv h job.id p = .settles t outcome → t < job.timeout →
      (executeJob st henv JSONparse job).outcome = .settled outcome) ∧
    (henv h job.id p = .never →
      (executeJob st henv JSONparse job).outcome
        = .settled (.error (timeoutError job.id job.timeout))) ∧
    (∀ t outcome, henv h job.id p = .settles t outcome → job.timeout < t →
      (executeJob st henv JSONparse job).outcome
        = .settled (.error (timeoutError job.id job.timeout))) := by
  have hT : job.timeout > 0 := htime
  refine ⟨?_, ?_, ?_, ?_⟩
  · unfold executeJob
    simp only [hreg, hparse, if_pos hT]
    cases hbe : henv h job.id p with
    | never => rfl
    | settles t outcome => by_cases ht : t < job.timeout <;> simp [ht]
  · intro t outcome hbe ht
    unfold executeJob
    simp only [hreg, hparse, if_pos hT, hbe, if_pos ht]
  · intro hbe
    unfold executeJob
    simp only [hreg, hparse, if_pos hT, hbe]
  · intro t outcome hbe ht
    have hnt : ¬ t < job.timeout := by omega
    unfold executeJob
    simp only [hreg, hparse, if_pos hT, hbe, if_neg hnt]

/-- Claim C1, witness: with a 10 ms timeout and a handler resolving at
5 ms, the call resolves with the handler's outcome and the handler was
invoked with the job id and the decoded payload. -/
theorem executeJob_timeout_race_witness :
    (executeJob stA henvFast parseSimple jobFast).calls = [(3, "j1", .obj [])] ∧
    (executeJob stA henvFast parseSimple jobFast).outcome = .settled (.ok ()) :=
  have main := executeJob_timeout_race stA henvFast parseSimple jobFast 3 (.obj [])
    rfl rfl (by decide)
  ⟨main.1, main.2.1 5 (.ok ()) rfl (by decide)⟩
